import Mathlib

/-!
Verification development for the Bitcoin paper-trading simulator (`main.py`).

The program keeps a cash balance, a BTC balance and an append-only
transaction history, trades against the latest price published by a
websocket feed, and persists balances and history to two JSON files.

Modelling conventions:
* All Python numbers (floats produced by `float(...)`, JSON numbers,
  balances) are modelled as exact rationals `ℚ`; the spec's numeric
  semantics section prescribes decimal/exact arithmetic, and the claims
  under study are about the algebraic structure of the updates, not about
  binary floating-point rounding.
* Python exceptions are modelled explicitly: operations return a tagged
  outcome, and the outcome `zeroDivisionError` marks the one exception the
  trading code can raise that its `except ValueError` handlers do not
  catch (`amount_usd / price` with `price == 0.0`).
* `input()` parsing with `float(...)` is modelled by passing the parsed
  value as `Option ℚ`: `none` is a `ValueError` (caught by the code, which
  prints "Invalid input") and `some q` a successful parse.
* The `id` (a fresh UUID) and `timestamp` (wall clock) fields of a
  transaction are generated from the environment and carry no logic the
  claims touch; they are not modelled.  The remaining transaction fields
  are kept with their source names.
* File persistence (`save_data` / `save_history`) is modelled as a
  write-through image of the saved JSON record inside the state; the
  `except IOError` path only logs, so the model keeps the happy path.
-/

/-- Kind of a recorded transaction: the `txn_type` string passed to
`record_transaction` is always `'buy'` or `'sell'`. -/
inductive TxnType where
  | buy
  | sell
deriving DecidableEq, Repr

/-- One entry of `transaction_history` as built by `record_transaction`
(`id` and `timestamp` omitted, see the module docstring). -/
structure Transaction where
  txn_type : TxnType
  amount_usd : ℚ
  btc : ℚ
  price_per_btc : ℚ
deriving DecidableEq, Repr

/-- Image of the JSON record written by `save_data`
(fields `cash_balance`, `btc_balance`, `starting_total`). -/
structure TraderData where
  cash_balance : ℚ
  btc_balance : ℚ
  starting_total : ℚ
deriving DecidableEq, Repr

/-- State of a `BitcoinPaperTrader` instance: the in-memory attributes
plus the write-through images of the two persistence files
(`trader_data.json` and `transaction_history.json`). -/
structure TraderState where
  cash_balance : ℚ
  btc_balance : ℚ
  starting_cash : ℚ
  starting_total : ℚ
  transaction_history : List Transaction
  data_file : Option TraderData
  history_file : Option (List Transaction)
deriving DecidableEq, Repr

/-- Outcome of a trading-engine operation.  Each constructor corresponds
to one terminal `print`/`return` path of the source, except
`zeroDivisionError`, which marks an uncaught Python `ZeroDivisionError`
escaping the method. -/
inductive TradeOutcome where
  | invalidInput
  | invalidAmount
  | insufficientCash
  | insufficientAsset
  | nothingToSell
  | priceUnavailable
  | invalidSelection
  | zeroDivisionError
  | success
deriving DecidableEq, Repr

/-- Translation of `save_data`: writes the three balance fields to the
data file. -/
def save_data (s : TraderState) : TraderState :=
  { s with data_file := some ⟨s.cash_balance, s.btc_balance, s.starting_total⟩ }

/-- Translation of `save_history`: writes the whole in-memory history to
the history file. -/
def save_history (s : TraderState) : TraderState :=
  { s with history_file := some s.transaction_history }

/-- Translation of `record_transaction`: appends one transaction record
and immediately saves the history. -/
def record_transaction (s : TraderState) (txn_type : TxnType)
    (amount_usd btc_amount price_per_btc : ℚ) : TraderState :=
  save_history
    { s with transaction_history :=
        s.transaction_history ++ [⟨txn_type, amount_usd, btc_amount, price_per_btc⟩] }

/-- Translation of `buy_btc`.  `amountInput` is the result of
`float(input(...))` (`none` = `ValueError`, caught), `price` the result of
`get_current_btc_price()` (`none` = no tick observed yet).  The check
order follows the source: parse, `amount_usd <= 0`,
`amount_usd > cash_balance`, price availability, then the division
`amount_usd / price` (which raises `ZeroDivisionError` when the price is
`0.0`, before any mutation), then the balance updates,
`record_transaction` and `save_data`. -/
def buy_btc (s : TraderState) (amountInput : Option ℚ) (price : Option ℚ) :
    TraderState × TradeOutcome :=
  match amountInput with
  | none => (s, .invalidInput)
  | some amount_usd =>
    if amount_usd ≤ 0 then (s, .invalidAmount)
    else if amount_usd > s.cash_balance then (s, .insufficientCash)
    else
      match price with
      | none => (s, .priceUnavailable)
      | some p =>
        if p = 0 then (s, .zeroDivisionError)
        else
          let btc_bought := amount_usd / p
          let s1 := { s with cash_balance := s.cash_balance - amount_usd,
                             btc_balance := s.btc_balance + btc_bought }
          (save_data (record_transaction s1 .buy amount_usd btc_bought p), .success)

/-- Translation of `sell_btc`.  `sub_choice` is the stripped menu answer,
`amountInput` the parsed USD amount (only read in mode `"2"`), `price` the
latest price.  The source checks `btc_balance == 0` first, before the
mode selection and before any price lookup; mode `"2"` performs the
division `amount_usd / price` before the balance check, raising
`ZeroDivisionError` when the price is `0.0`. -/
def sell_btc (s : TraderState) (sub_choice : String) (amountInput : Option ℚ)
    (price : Option ℚ) : TraderState × TradeOutcome :=
  if s.btc_balance = 0 then (s, .nothingToSell)
  else if sub_choice = "1" then
    match price with
    | none => (s, .priceUnavailable)
    | some p =>
      let btc_to_sell := s.btc_balance
      let amount_usd := btc_to_sell * p
      let s1 := { s with btc_balance := 0, cash_balance := s.cash_balance + amount_usd }
      (save_data (record_transaction s1 .sell amount_usd btc_to_sell p), .success)
  else if sub_choice = "2" then
    match amountInput with
    | none => (s, .invalidInput)
    | some amount_usd =>
      if amount_usd ≤ 0 then (s, .invalidAmount)
      else
        match price with
        | none => (s, .priceUnavailable)
        | some p =>
          if p = 0 then (s, .zeroDivisionError)
          else
            let btc_to_sell := amount_usd / p
            if btc_to_sell > s.btc_balance then (s, .insufficientAsset)
            else
              let s1 := { s with btc_balance := s.btc_balance - btc_to_sell,
                                 cash_balance := s.cash_balance + amount_usd }
              (save_data (record_transaction s1 .sell amount_usd btc_to_sell p), .success)
  else (s, .invalidSelection)

/-- Translation of the Python string method `strip()` (with no argument):
removes leading and trailing whitespace. -/
def pyStrip (s : String) : String :=
  String.mk (((s.toList.dropWhile Char.isWhitespace).reverse.dropWhile
    Char.isWhitespace).reverse)

/-- Translation of the Python string method `lower()` on the ASCII range
relevant to the menu answers (`'Y'` ↦ `'y'` and so on). -/
def pyLower (s : String) : String :=
  String.mk (s.toList.map Char.toLower)

/-- Translation of `reset_trader`: the confirmation string is stripped and
lowercased and compared with `'y'`; on confirmation the balances revert to
`starting_cash`, the history is cleared, and both files are saved.  The
returned flag is `true` exactly when the reset was applied. -/
def reset_trader (s : TraderState) (confirm : String) : TraderState × Bool :=
  if pyLower (pyStrip confirm) = "y" then
    (save_history (save_data
      { s with cash_balance := s.starting_cash, btc_balance := 0,
               transaction_history := [] }), true)
  else (s, false)

/-- Payload printed by `view_total_pl` on success. -/
structure TotalPL where
  current_price : ℚ
  cash_balance : ℚ
  btc_balance : ℚ
  current_total : ℚ
  pl : ℚ
  pl_percent : ℚ
deriving DecidableEq, Repr

/-- Translation of `view_total_pl`: errors when no price is available;
divides by `starting_total` when computing the percentage, raising
`ZeroDivisionError` when `starting_total == 0`. -/
def view_total_pl (s : TraderState) (price : Option ℚ) :
    Option TotalPL × TradeOutcome :=
  match price with
  | none => (none, .priceUnavailable)
  | some p =>
    if s.starting_total = 0 then (none, .zeroDivisionError)
    else
      let current_total := s.cash_balance + s.btc_balance * p
      let pl := current_total - s.starting_total
      (some ⟨p, s.cash_balance, s.btc_balance, current_total, pl,
        (current_total - s.starting_total) / s.starting_total * 100⟩, .success)

/-- Translation of `view_transaction_history`: a read-only view of the
history in insertion order. -/
def view_transaction_history (s : TraderState) : List Transaction :=
  s.transaction_history

/-- JSON values as produced by `json.loads` (numbers as exact rationals,
objects as association lists of string keys). -/
inductive Json where
  | null
  | bool (b : Bool)
  | num (q : ℚ)
  | str (s : String)
  | arr (elems : List Json)
  | obj (fields : List (String × Json))
deriving Repr

/-- Python exceptions that the feed handler's code can raise.  The
`except` clause of `on_message` names `KeyError`, `ValueError` and
`IndexError`; `json.JSONDecodeError` is a subclass of `ValueError`. -/
inductive PyError where
  | keyError
  | valueError
  | indexError
  | typeError
deriving DecidableEq, Repr

/-- Python subscripting `x['c']` with a string key: succeeds on a dict
with that key, raises `KeyError` on a dict without it, and raises
`TypeError` on every other JSON value (lists and strings demand integer
indices; numbers, booleans and `None` are not subscriptable). -/
def getItemStr (j : Json) (key : String) : Except PyError Json :=
  match j with
  | .obj fields =>
    match fields.lookup key with
    | some v => .ok v
    | none => .error .keyError
  | _ => .error .typeError

/-- Python subscripting `x[0]`: first element of a list (IndexError when
empty), first character of a string (IndexError when empty), `KeyError`
on a JSON-decoded dict (whose keys are all strings, never the int `0`),
`TypeError` otherwise. -/
def getItemZero (j : Json) : Except PyError Json :=
  match j with
  | .arr (x :: _) => .ok x
  | .arr [] => .error .indexError
  | .str t =>
    match t.toList with
    | c :: _ => .ok (.str (String.mk [c]))
    | [] => .error .indexError
  | .obj _ => .error .keyError
  | _ => .error .typeError

/-- Digits of a decimal literal folded to a natural number; `none` when
the list contains a non-digit. -/
def digitsVal (cs : List Char) : Option Nat :=
  cs.foldl
    (fun acc c =>
      match acc with
      | none => none
      | some n => if c.isDigit then some (10 * n + (c.toNat - 48)) else none)
    (some 0)

/-- Modelled from the Python builtin `float(str)` on the decimal-literal
subset actually sent by the feed and the user: optional sign, then
digits with an optional single decimal point (`"65000.1"`, `"-3."`,
`".5"`); anything else (empty, letters, a second point — and, beyond this
model, exponents and `inf`/`nan`) is a `ValueError`. -/
def parseDecimal (s : String) : Option ℚ :=
  let cs := s.toList
  let signed : Bool × List Char :=
    match cs with
    | '-' :: rest => (true, rest)
    | '+' :: rest => (false, rest)
    | _ => (false, cs)
  let intPart := signed.2.takeWhile (fun c => c ≠ '.')
  let rest := signed.2.dropWhile (fun c => c ≠ '.')
  let build : Option ℚ :=
    match rest with
    | [] =>
      match digitsVal intPart with
      | some n => if intPart.isEmpty then none else some (n : ℚ)
      | none => none
    | _ :: frac =>
      if intPart.isEmpty ∧ frac.isEmpty then none
      else
        match digitsVal intPart, digitsVal frac with
        | some n, some f => some ((n : ℚ) + (f : ℚ) / ((10 : ℚ) ^ frac.length))
        | _, _ => none
  match build with
  | some q => some (if signed.1 then -q else q)
  | none => none

/-- Conversion by the Python builtin `float(x)` applied to a JSON value:
numbers pass through, booleans become `0`/`1`, strings are parsed as
decimals (`ValueError` on failure), and `None`, lists and dicts raise
`TypeError`. -/
def pyFloat (j : Json) : Except PyError ℚ :=
  match j with
  | .num q => .ok q
  | .bool b => .ok (if b then 1 else 0)
  | .str t =>
    match parseDecimal (pyStrip t) with
    | some q => .ok q
    | none => .error .valueError
  | .null => .error .typeError
  | .arr _ => .error .typeError
  | .obj _ => .error .typeError

/-- Outcome of one `on_message` call. -/
inductive HandlerOutcome where
  | updated
  | ignored
  | caughtError (e : PyError)
  | uncaught (e : PyError)
deriving DecidableEq, Repr

/-- Translation of `on_message`.  `message` is the websocket payload:
`none` when `json.loads` fails (`json.JSONDecodeError`, a `ValueError`,
caught), otherwise the decoded value.  A decoded list of length `>= 2`
has `data[1]['c'][0]` converted with `float`; on success the latest price
cell is replaced under the lock.  `KeyError`, `ValueError` and
`IndexError` are caught and logged; any `TypeError` raised by the
subscripts or the conversion escapes the handler. -/
def on_message (price : Option ℚ) (message : Option Json) :
    Option ℚ × HandlerOutcome :=
  match message with
  | none => (price, .caughtError .valueError)
  | some data =>
    match data with
    | .arr (_ :: ticker_info :: _) =>
      match (do
          let c ← getItemStr ticker_info "c"
          let c0 ← getItemZero c
          pyFloat c0 : Except PyError ℚ) with
      | .ok p => (some p, .updated)
      | .error .typeError => (price, .uncaught .typeError)
      | .error e => (price, .caughtError e)
    | _ => (price, .ignored)

/-- Concrete state of a freshly initialized trader (starting cash $20000,
no BTC, empty history), as built by the constructor on first run. -/
def s0 : TraderState := ⟨20000, 0, 20000, 20000, [], none, none⟩

/-- Concrete state holding 2 BTC alongside $10000 of cash. -/
def sHold : TraderState := ⟨10000, 2, 20000, 20000, [], none, none⟩

/-- Concrete state whose configured starting cash is negative; the class
constructor does not constrain its `starting_cash` argument. -/
def sNeg : TraderState := ⟨0, 0, -1, 20000, [], none, none⟩

lemma buy_btc_success_eq (s : TraderState) (a p : ℚ)
    (h1 : ¬ a ≤ 0) (h2 : ¬ a > s.cash_balance) (h3 : p ≠ 0) :
    buy_btc s (some a) (some p) =
      ({ s with
          cash_balance := s.cash_balance - a,
          btc_balance := s.btc_balance + a / p,
          transaction_history := s.transaction_history ++ [⟨.buy, a, a / p, p⟩],
          data_file := some ⟨s.cash_balance - a, s.btc_balance + a / p, s.starting_total⟩,
          history_file := some (s.transaction_history ++ [⟨.buy, a, a / p, p⟩]) },
        .success) := by
  simp [buy_btc, record_transaction, save_data, save_history, h1, h2, h3]

lemma sell_btc_all_success_eq (s : TraderState) (inp : Option ℚ) (p : ℚ)
    (h1 : s.btc_balance ≠ 0) :
    sell_btc s "1" inp (some p) =
      ({ s with
          btc_balance := 0,
          cash_balance := s.cash_balance + s.btc_balance * p,
          transaction_history :=
            s.transaction_history ++ [⟨.sell, s.btc_balance * p, s.btc_balance, p⟩],
          data_file := some ⟨s.cash_balance + s.btc_balance * p, 0, s.starting_total⟩,
          history_file :=
            some (s.transaction_history ++ [⟨.sell, s.btc_balance * p, s.btc_balance, p⟩]) },
        .success) := by
  simp [sell_btc, record_transaction, save_data, save_history, h1]

lemma sell_btc_amount_success_eq (s : TraderState) (a p : ℚ)
    (h1 : s.btc_balance ≠ 0) (h2 : ¬ a ≤ 0) (h3 : p ≠ 0)
    (h4 : ¬ a / p > s.btc_balance) :
    sell_btc s "2" (some a) (some p) =
      ({ s with
          btc_balance := s.btc_balance - a / p,
          cash_balance := s.cash_balance + a,
          transaction_history := s.transaction_history ++ [⟨.sell, a, a / p, p⟩],
          data_file := some ⟨s.cash_balance + a, s.btc_balance - a / p, s.starting_total⟩,
          history_file := some (s.transaction_history ++ [⟨.sell, a, a / p, p⟩]) },
        .success) := by
  simp [sell_btc, record_transaction, save_data, save_history, h1, h2, h3, h4]

lemma reset_trader_confirmed_eq (s : TraderState) (confirm : String)
    (h : pyLower (pyStrip confirm) = "y") :
    reset_trader s confirm =
      ({ s with
          cash_balance := s.starting_cash,
          btc_balance := 0,
          transaction_history := [],
          data_file := some ⟨s.starting_cash, 0, s.starting_total⟩,
          history_file := some [] }, true) := by
  simp [reset_trader, save_data, save_history, h]

/-- C1 (amended): for every buy with `0 < usdAmount ≤ cashBalance` and an
available price `p ≠ 0`, the operation succeeds, `cashBalance` drops by
exactly `usdAmount`, `assetBalance` grows by exactly `usdAmount / p`, and
exactly one Buy transaction `{usdAmount, usdAmount / p, p}` is appended to
the history. -/
theorem buy_valid_trade_updates (s : TraderState) (amount p : ℚ)
    (hpos : 0 < amount) (hcash : amount ≤ s.cash_balance) (hp : p ≠ 0) :
    (buy_btc s (some amount) (some p)).2 = .success ∧
    (buy_btc s (some amount) (some p)).1.cash_balance = s.cash_balance - amount ∧
    (buy_btc s (some amount) (some p)).1.btc_balance = s.btc_balance + amount / p ∧
    (buy_btc s (some amount) (some p)).1.transaction_history =
      s.transaction_history ++ [⟨.buy, amount, amount / p, p⟩] := by
  rw [buy_btc_success_eq s amount p (not_le.mpr hpos) (not_lt.mpr hcash) hp]
  exact ⟨rfl, rfl, rfl, rfl⟩

/-- C1 counterexample: price `0` is an available price, and a buy of $100
against $20000 of cash satisfies `0 < usdAmount ≤ cashBalance`, yet the
operation does not succeed: the division `amount_usd / price` raises an
uncaught `ZeroDivisionError` (nothing is appended, balances untouched). -/
theorem buy_valid_trade_updates_cex :
    0 < (100 : ℚ) ∧ (100 : ℚ) ≤ s0.cash_balance ∧
    buy_btc s0 (some 100) (some 0) = (s0, .zeroDivisionError) := by
  decide

/-- C1 witness: the amended theorem applied to a $10000 buy at price
$50000 from the freshly initialized state. -/
theorem buy_valid_trade_updates_witness :
    0 < (10000 : ℚ) ∧ (10000 : ℚ) ≤ s0.cash_balance ∧ (50000 : ℚ) ≠ 0 ∧
    ((buy_btc s0 (some 10000) (some 50000)).2 = .success ∧
     (buy_btc s0 (some 10000) (some 50000)).1.cash_balance = s0.cash_balance - 10000 ∧
     (buy_btc s0 (some 10000) (some 50000)).1.btc_balance = s0.btc_balance + 10000 / 50000 ∧
     (buy_btc s0 (some 10000) (some 50000)).1.transaction_history =
       s0.transaction_history ++ [⟨.buy, 10000, 10000 / 50000, 50000⟩]) :=
  ⟨by decide, by decide, by decide,
    buy_valid_trade_updates s0 10000 50000 (by decide) (by decide) (by decide)⟩

/-- C3: a buy request with `usdAmount ≤ 0` returns `InvalidAmount`
(this check runs first, so it wins even when the amount also exceeds the
cash balance), and a buy with `0 < usdAmount > cashBalance` returns
`InsufficientCash`; in both cases the whole state — balances, history and
files — is unchanged.  The statement holds for any price, available or
not, since both checks precede the price lookup. -/
theorem buy_rejects_invalid_and_insufficient (s : TraderState) (amount : ℚ)
    (price : Option ℚ) :
    (amount ≤ 0 → buy_btc s (some amount) price = (s, .invalidAmount)) ∧
    (0 < amount → s.cash_balance < amount →
      buy_btc s (some amount) price = (s, .insufficientCash)) := by
  constructor
  · intro h
    simp [buy_btc, h]
  · intro h1 h2
    simp [buy_btc, not_le.mpr h1, h2]

/-- C3 witness: `buy(-5)` and `buy(0)` return `InvalidAmount`, and a
$30000 buy against $20000 of cash returns `InsufficientCash`, each leaving
the state unchanged. -/
theorem buy_rejects_invalid_and_insufficient_witness :
    buy_btc s0 (some (-5)) none = (s0, .invalidAmount) ∧
    buy_btc s0 (some 0) none = (s0, .invalidAmount) ∧
    buy_btc s0 (some 30000) none = (s0, .insufficientCash) :=
  ⟨(buy_rejects_invalid_and_insufficient s0 (-5) none).1 (by decide),
   (buy_rejects_invalid_and_insufficient s0 0 none).1 (by decide),
   (buy_rejects_invalid_and_insufficient s0 30000 none).2 (by decide) (by decide)⟩

/-- C2 (amended): a trade whose earlier validations pass (buy:
`0 < usdAmount ≤ cashBalance`; sell-all: nonzero asset balance;
sell-amount: nonzero asset balance and `usdAmount > 0`) invoked while no
price has been observed returns `PriceUnavailable`; moreover every trade
invocation made while the price is unavailable — whatever its arguments —
leaves the state unchanged.  (Validation errors fire before the price
check, so an invalid request reports its validation error instead.) -/
theorem trade_price_unavailable (s : TraderState) (amount : ℚ) (inp : Option ℚ)
    (sub_choice : String) :
    (0 < amount → amount ≤ s.cash_balance →
      buy_btc s (some amount) none = (s, .priceUnavailable)) ∧
    (s.btc_balance ≠ 0 → sell_btc s "1" inp none = (s, .priceUnavailable)) ∧
    (s.btc_balance ≠ 0 → 0 < amount →
      sell_btc s "2" (some amount) none = (s, .priceUnavailable)) ∧
    (buy_btc s inp none).1 = s ∧
    (sell_btc s sub_choice inp none).1 = s := by
  refine ⟨?_, ?_, ?_, ?_, ?_⟩
  · intro h1 h2
    simp [buy_btc, not_le.mpr h1, not_lt.mpr h2]
  · intro h
    simp [sell_btc, h]
  · intro h h2
    simp [sell_btc, h, not_le.mpr h2]
  · cases inp with
    | none => simp [buy_btc]
    | some a =>
      by_cases h : a ≤ 0
      · simp [buy_btc, h]
      · by_cases h2 : a > s.cash_balance
        · simp [buy_btc, h, h2]
        · simp [buy_btc, h, h2]
  · by_cases h0 : s.btc_balance = 0
    · simp [sell_btc, h0]
    · by_cases hc1 : sub_choice = "1"
      · simp [sell_btc, h0, hc1]
      · by_cases hc2 : sub_choice = "2"
        · subst hc2
          cases inp with
          | none => simp [sell_btc, h0]
          | some a =>
            by_cases h : a ≤ 0
            · simp [sell_btc, h0, h]
            · simp [sell_btc, h0, h]
        · simp [sell_btc, h0, hc1, hc2]

/-- C2 counterexample: `buy(0)` invoked while the price is unavailable
returns `InvalidAmount`, not `PriceUnavailable` — the amount validation
runs before the price lookup. -/
theorem trade_price_unavailable_cex :
    (buy_btc s0 (some 0) none).2 = .invalidAmount ∧
    (buy_btc s0 (some 0) none).2 ≠ .priceUnavailable := by
  decide

/-- C2 witness: all three validated trade forms, invoked on the 2-BTC
state with no price observed, return `PriceUnavailable` unchanged. -/
theorem trade_price_unavailable_witness :
    buy_btc sHold (some 100) none = (sHold, .priceUnavailable) ∧
    sell_btc sHold "1" none none = (sHold, .priceUnavailable) ∧
    sell_btc sHold "2" (some 100) none = (sHold, .priceUnavailable) :=
  ⟨(trade_price_unavailable sHold 100 none "1").1 (by decide) (by decide),
   (trade_price_unavailable sHold 100 none "1").2.1 (by decide),
   (trade_price_unavailable sHold 100 none "1").2.2.1 (by decide) (by decide)⟩

/-- C4 (amended): for a sell-amount request with a nonzero asset balance,
`usdAmount > 0` and an available price `p ≠ 0`: when
`usdAmount / p > assetBalance` it returns `InsufficientAsset` with no
mutation, otherwise the asset balance decreases by `usdAmount / p`, the
cash balance increases by `usdAmount`, and a Sell transaction is
recorded.  (When the asset balance is zero the method returns
`NothingToSell` before even reading the mode, and when `p = 0` the
division raises `ZeroDivisionError`, so both are excluded here.) -/
theorem sell_amount_checks (s : TraderState) (amount p : ℚ)
    (hbtc : s.btc_balance ≠ 0) (hpos : 0 < amount) (hp : p ≠ 0) :
    (s.btc_balance < amount / p →
      sell_btc s "2" (some amount) (some p) = (s, .insufficientAsset)) ∧
    (amount / p ≤ s.btc_balance →
      (sell_btc s "2" (some amount) (some p)).2 = .success ∧
      (sell_btc s "2" (some amount) (some p)).1.btc_balance =
        s.btc_balance - amount / p ∧
      (sell_btc s "2" (some amount) (some p)).1.cash_balance =
        s.cash_balance + amount ∧
      (sell_btc s "2" (some amount) (some p)).1.transaction_history =
        s.transaction_history ++ [⟨.sell, amount, amount / p, p⟩]) := by
  constructor
  · intro h
    simp [sell_btc, hbtc, not_le.mpr hpos, hp, h]
  · intro h
    rw [sell_btc_amount_success_eq s amount p hbtc (not_le.mpr hpos) hp (not_lt.mpr h)]
    exact ⟨rfl, rfl, rfl, rfl⟩

/-- C4 counterexample: with `assetBalance == 0` (a case the claim
explicitly includes, since `usdAmount / p = 2 > 0`), the sell returns
`NothingToSell` — the zero-balance guard at the top of `sell_btc` fires
before the sell-amount branch is ever reached — not `InsufficientAsset`. -/
theorem sell_amount_checks_cex :
    s0.btc_balance = 0 ∧ 0 < (100 : ℚ) ∧
    sell_btc s0 "2" (some 100) (some 50) = (s0, .nothingToSell) ∧
    (sell_btc s0 "2" (some 100) (some 50)).2 ≠ .insufficientAsset := by
  decide

/-- C4 witness: the amended theorem applied to a $100 sell at price $50
from the state holding 2 BTC. -/
theorem sell_amount_checks_witness :
    sHold.btc_balance ≠ 0 ∧ 0 < (100 : ℚ) ∧ (50 : ℚ) ≠ 0 ∧
    ((sHold.btc_balance < 100 / 50 →
       sell_btc sHold "2" (some 100) (some 50) = (sHold, .insufficientAsset)) ∧
     (100 / 50 ≤ sHold.btc_balance →
       (sell_btc sHold "2" (some 100) (some 50)).2 = .success ∧
       (sell_btc sHold "2" (some 100) (some 50)).1.btc_balance =
         sHold.btc_balance - 100 / 50 ∧
       (sell_btc sHold "2" (some 100) (some 50)).1.cash_balance =
         sHold.cash_balance + 100 ∧
       (sell_btc sHold "2" (some 100) (some 50)).1.transaction_history =
         sHold.transaction_history ++ [⟨.sell, 100, 100 / 50, 50⟩])) :=
  ⟨by decide, by decide, by decide,
    sell_amount_checks sHold 100 50 (by decide) (by decide) (by decide)⟩

/-- C5 (amended): with an available price, sell-all always leaves
`assetBalance == 0` afterward; when the prior asset balance is zero it
returns `NothingToSell` (so the balance stays zero), and otherwise the
cash balance increases by `assetBalance * price` and the trade succeeds.
(When no price is available and the balance is nonzero, the method
returns `PriceUnavailable` and the asset balance stays nonzero.) -/
theorem sell_all_behavior (s : TraderState) (inp : Option ℚ) (p : ℚ) :
    (s.btc_balance = 0 → sell_btc s "1" inp (some p) = (s, .nothingToSell)) ∧
    (s.btc_balance ≠ 0 →
      (sell_btc s "1" inp (some p)).2 = .success ∧
      (sell_btc s "1" inp (some p)).1.btc_balance = 0 ∧
      (sell_btc s "1" inp (some p)).1.cash_balance =
        s.cash_balance + s.btc_balance * p) := by
  constructor
  · intro h
    simp [sell_btc, h]
  · intro h
    rw [sell_btc_all_success_eq s inp p h]
    exact ⟨rfl, rfl, rfl⟩

/-- C5 counterexample: a sell-all from the 2-BTC state while the price is
unavailable leaves `assetBalance = 2 ≠ 0` afterward, refuting "always
results in `assetBalance == 0` regardless of prior balance". -/
theorem sell_all_behavior_cex :
    (sell_btc sHold "1" none none).1.btc_balance = 2 ∧ (2 : ℚ) ≠ 0 ∧
    (sell_btc sHold "1" none none).2 = .priceUnavailable := by
  decide

/-- C5 witness: the amended theorem applied at price $60000: a sell-all
on the empty-asset state reports `NothingToSell`, and on the 2-BTC state
zeroes the asset balance and credits `2 * 60000`. -/
theorem sell_all_behavior_witness :
    sell_btc s0 "1" none (some 60000) = (s0, .nothingToSell) ∧
    ((sell_btc sHold "1" none (some 60000)).2 = .success ∧
     (sell_btc sHold "1" none (some 60000)).1.btc_balance = 0 ∧
     (sell_btc sHold "1" none (some 60000)).1.cash_balance =
       sHold.cash_balance + sHold.btc_balance * 60000) :=
  ⟨(sell_all_behavior s0 none 60000).1 (by decide),
   (sell_all_behavior sHold none 60000).2 (by decide)⟩

lemma buy_btc_zeroDiv_price (s : TraderState) (inp price : Option ℚ)
    (h : (buy_btc s inp price).2 = .zeroDivisionError) : price = some 0 := by
  cases inp with
  | none => simp [buy_btc] at h
  | some a =>
    by_cases h1 : a ≤ 0
    · simp [buy_btc, h1] at h
    · by_cases h2 : a > s.cash_balance
      · simp [buy_btc, h1, h2] at h
      · cases price with
        | none => simp [buy_btc, h1, h2] at h
        | some p =>
          by_cases h3 : p = 0
          · rw [h3]
          · simp [buy_btc, h1, h2, h3] at h

lemma sell_btc_zeroDiv_price (s : TraderState) (sub_choice : String)
    (inp price : Option ℚ)
    (h : (sell_btc s sub_choice inp price).2 = .zeroDivisionError) :
    price = some 0 := by
  by_cases h0 : s.btc_balance = 0
  · simp [sell_btc, h0] at h
  · by_cases hc1 : sub_choice = "1"
    · cases price with
      | none => simp [sell_btc, h0, hc1] at h
      | some p => simp [sell_btc, h0, hc1] at h
    · by_cases hc2 : sub_choice = "2"
      · subst hc2
        cases inp with
        | none => simp [sell_btc, h0, hc1] at h
        | some a =>
          by_cases h1 : a ≤ 0
          · simp [sell_btc, h0, hc1, h1] at h
          · cases price with
            | none => simp [sell_btc, h0, hc1, h1] at h
            | some p =>
              by_cases h3 : p = 0
              · rw [h3]
              · by_cases h4 : a / p > s.btc_balance
                · simp [sell_btc, h0, hc1, h1, h3, h4] at h
                · simp [sell_btc, h0, hc1, h1, h3, h4] at h
      · simp [sell_btc, h0, hc1, hc2] at h

lemma view_total_pl_zeroDiv (s : TraderState) (price : Option ℚ)
    (h : (view_total_pl s price).2 = .zeroDivisionError) :
    s.starting_total = 0 := by
  cases price with
  | none => simp [view_total_pl] at h
  | some p =>
    by_cases h0 : s.starting_total = 0
    · exact h0
    · simp [view_total_pl, h0] at h

/-- C6 (amended): every engine operation is total and returns either a
success payload or a tagged error — with two exceptions the code does not
guard: a buy or sell-amount executed while the available latest price is
`0` raises an uncaught `ZeroDivisionError`, and the valuation raises an
uncaught `ZeroDivisionError` when the persisted `starting_total` is `0`.
Away from those two inputs no operation raises: non-numeric user-entered
amounts are caught `ValueError`s (tagged here as `invalidInput`), and the
history view and reset have no failure path at all (they are plain total
functions in this model). -/
theorem engine_no_uncaught_exception (s : TraderState) (inp : Option ℚ)
    (sub_choice : String) (price : Option ℚ)
    (hp : price ≠ some 0) (hst : s.starting_total ≠ 0) :
    (buy_btc s inp price).2 ≠ .zeroDivisionError ∧
    (sell_btc s sub_choice inp price).2 ≠ .zeroDivisionError ∧
    (view_total_pl s price).2 ≠ .zeroDivisionError := by
  refine ⟨fun h => hp ?_, fun h => hp ?_, fun h => hst ?_⟩
  · exact buy_btc_zeroDiv_price s inp price h
  · exact sell_btc_zeroDiv_price s sub_choice inp price h
  · exact view_total_pl_zeroDiv s price h

/-- C6 counterexample: with the latest price equal to `0` — an input the
claim explicitly includes — a valid $100 buy and a valid $100 sell-amount
both raise an uncaught `ZeroDivisionError` past the engine boundary. -/
theorem engine_no_uncaught_exception_cex :
    (buy_btc s0 (some 100) (some 0)).2 = .zeroDivisionError ∧
    (sell_btc sHold "2" (some 100) (some 0)).2 = .zeroDivisionError := by
  decide

/-- C6 witness: the amended theorem applied at price $50000 on the fresh
state (whose `starting_total` is $20000). -/
theorem engine_no_uncaught_exception_witness :
    (some (50000 : ℚ) ≠ some (0 : ℚ)) ∧ s0.starting_total ≠ 0 ∧
    ((buy_btc s0 (some 100) (some 50000)).2 ≠ .zeroDivisionError ∧
     (sell_btc s0 "1" (some 100) (some 50000)).2 ≠ .zeroDivisionError ∧
     (view_total_pl s0 (some 50000)).2 ≠ .zeroDivisionError) :=
  ⟨by decide, by decide,
    engine_no_uncaught_exception s0 (some 100) "1" (some 50000) (by decide) (by decide)⟩

/-- C8: a confirmed `reset()` from any prior state restores
`cashBalance = startingCash`, zeroes the asset balance, clears the
transaction history, and persists both: the data file receives the reset
balances and the history file the empty list. -/
theorem reset_confirmed_state (s : TraderState) (confirm : String)
    (h : pyLower (pyStrip confirm) = "y") :
    reset_trader s confirm =
      ({ s with
          cash_balance := s.starting_cash,
          btc_balance := 0,
          transaction_history := [],
          data_file := some ⟨s.starting_cash, 0, s.starting_total⟩,
          history_file := some [] }, true) := by
  simp [reset_trader, save_data, save_history, h]

/-- C8 witness: the theorem applied to the 2-BTC state with the
confirmation answer `" Y "` (stripped and lowercased to `'y'`). -/
theorem reset_confirmed_state_witness :
    pyLower (pyStrip " Y ") = "y" ∧
    reset_trader sHold " Y " =
      ({ sHold with
          cash_balance := sHold.starting_cash,
          btc_balance := 0,
          transaction_history := [],
          data_file := some ⟨sHold.starting_cash, 0, sHold.starting_total⟩,
          history_file := some [] }, true) :=
  ⟨by decide, reset_confirmed_state sHold " Y " (by decide)⟩

/-- C9 (amended): from any state with `cashBalance ≥ 0`,
`assetBalance ≥ 0` and a nonnegative configured `starting_cash` (the
program always constructs the trader with $20000), and for any available
price `p > 0`, every engine operation — buy with any entered amount, sell
in either mode with any entered amount, and reset with any confirmation —
yields a state with `cashBalance ≥ 0` and `assetBalance ≥ 0`. -/
theorem balances_nonneg_preserved (s : TraderState) (p : ℚ) (inp : Option ℚ)
    (sub_choice confirm : String)
    (hc : 0 ≤ s.cash_balance) (hb : 0 ≤ s.btc_balance)
    (hs : 0 ≤ s.starting_cash) (hp : 0 < p) :
    (0 ≤ (buy_btc s inp (some p)).1.cash_balance ∧
     0 ≤ (buy_btc s inp (some p)).1.btc_balance) ∧
    (0 ≤ (sell_btc s sub_choice inp (some p)).1.cash_balance ∧
     0 ≤ (sell_btc s sub_choice inp (some p)).1.btc_balance) ∧
    (0 ≤ (reset_trader s confirm).1.cash_balance ∧
     0 ≤ (reset_trader s confirm).1.btc_balance) := by
  refine ⟨?_, ?_, ?_⟩
  · cases inp with
    | none => exact ⟨hc, hb⟩
    | some a =>
      by_cases h1 : a ≤ 0
      · simpa [buy_btc, h1] using ⟨hc, hb⟩
      · by_cases h2 : a > s.cash_balance
        · simpa [buy_btc, h1, h2] using ⟨hc, hb⟩
        · rw [buy_btc_success_eq s a p h1 h2 hp.ne']
          constructor
          · show 0 ≤ s.cash_balance - a
            have := not_lt.mp h2
            linarith
          · show 0 ≤ s.btc_balance + a / p
            have ha : 0 < a := not_le.mp h1
            have : 0 ≤ a / p := le_of_lt (div_pos ha hp)
            linarith
  · by_cases h0 : s.btc_balance = 0
    · have hnone : sell_btc s sub_choice inp (some p) = (s, .nothingToSell) := by
        simp [sell_btc, h0]
      rw [hnone]
      exact ⟨hc, hb⟩
    · by_cases hc1 : sub_choice = "1"
      · subst hc1
        rw [sell_btc_all_success_eq s inp p h0]
        constructor
        · show 0 ≤ s.cash_balance + s.btc_balance * p
          have : 0 ≤ s.btc_balance * p := mul_nonneg hb hp.le
          linarith
        · exact le_refl 0
      · by_cases hc2 : sub_choice = "2"
        · subst hc2
          cases inp with
          | none => simpa [sell_btc, h0, hc1] using ⟨hc, hb⟩
          | some a =>
            by_cases h1 : a ≤ 0
            · simpa [sell_btc, h0, hc1, h1] using ⟨hc, hb⟩
            · by_cases h4 : a / p > s.btc_balance
              · simpa [sell_btc, h0, hc1, h1, hp.ne', h4] using ⟨hc, hb⟩
              · rw [sell_btc_amount_success_eq s a p h0 h1 hp.ne' h4]
                constructor
                · show 0 ≤ s.cash_balance + a
                  have ha : 0 < a := not_le.mp h1
                  linarith
                · show 0 ≤ s.btc_balance - a / p
                  have := not_lt.mp h4
                  linarith
        · simpa [sell_btc, h0, hc1, hc2] using ⟨hc, hb⟩
  · by_cases hy : pyLower (pyStrip confirm) = "y"
    · rw [reset_trader_confirmed_eq s confirm hy]
      exact ⟨hs, le_refl 0⟩
    · simpa [reset_trader, hy] using ⟨hc, hb⟩

/-- C9 counterexample: the state `sNeg` satisfies `cashBalance ≥ 0` and
`assetBalance ≥ 0`, yet a confirmed reset copies its negative configured
starting cash into the cash balance, ending with `cashBalance = -1 < 0`. -/
theorem balances_nonneg_preserved_cex :
    0 ≤ sNeg.cash_balance ∧ 0 ≤ sNeg.btc_balance ∧
    (reset_trader sNeg "y").1.cash_balance = -1 ∧ (-1 : ℚ) < 0 := by
  decide

/-- C9 witness: the amended theorem applied to the fresh state at price
$50000 with a $100 buy input, the sell-all mode and a declined reset. -/
theorem balances_nonneg_preserved_witness :
    0 ≤ s0.cash_balance ∧ 0 ≤ s0.btc_balance ∧ 0 ≤ s0.starting_cash ∧
    0 < (50000 : ℚ) ∧
    ((0 ≤ (buy_btc s0 (some 100) (some 50000)).1.cash_balance ∧
      0 ≤ (buy_btc s0 (some 100) (some 50000)).1.btc_balance) ∧
     (0 ≤ (sell_btc s0 "1" (some 100) (some 50000)).1.cash_balance ∧
      0 ≤ (sell_btc s0 "1" (some 100) (some 50000)).1.btc_balance) ∧
     (0 ≤ (reset_trader s0 "n").1.cash_balance ∧
      0 ≤ (reset_trader s0 "n").1.btc_balance)) :=
  ⟨by decide, by decide, by decide, by decide,
    balances_nonneg_preserved s0 50000 (some 100) "1" "n"
      (by decide) (by decide) (by decide) (by decide)⟩

/-- C10: every successful trade — buy, sell-all or sell-amount — appends
exactly one transaction, and that transaction satisfies
`assetAmount * pricePerUnit = usdAmount` exactly (the trade is a
value-neutral exchange of notional value at the execution price). -/
theorem trade_notional_conservation (s : TraderState) (inp price : Option ℚ)
    (sub_choice : String) :
    ((buy_btc s inp price).2 = .success →
      ∃ t : Transaction,
        (buy_btc s inp price).1.transaction_history =
          s.transaction_history ++ [t] ∧
        t.btc * t.price_per_btc = t.amount_usd) ∧
    ((sell_btc s sub_choice inp price).2 = .success →
      ∃ t : Transaction,
        (sell_btc s sub_choice inp price).1.transaction_history =
          s.transaction_history ++ [t] ∧
        t.btc * t.price_per_btc = t.amount_usd) := by
  constructor
  · intro h
    cases inp with
    | none => simp [buy_btc] at h
    | some a =>
      by_cases h1 : a ≤ 0
      · simp [buy_btc, h1] at h
      · by_cases h2 : a > s.cash_balance
        · simp [buy_btc, h1, h2] at h
        · cases price with
          | none => simp [buy_btc, h1, h2] at h
          | some p =>
            by_cases h3 : p = 0
            · simp [buy_btc, h1, h2, h3] at h
            · rw [buy_btc_success_eq s a p h1 h2 h3]
              exact ⟨⟨.buy, a, a / p, p⟩, rfl, div_mul_cancel₀ a h3⟩
  · intro h
    by_cases h0 : s.btc_balance = 0
    · simp [sell_btc, h0] at h
    · by_cases hc1 : sub_choice = "1"
      · subst hc1
        cases price with
        | none => simp [sell_btc, h0] at h
        | some p =>
          rw [sell_btc_all_success_eq s inp p h0]
          exact ⟨⟨.sell, s.btc_balance * p, s.btc_balance, p⟩, rfl, rfl⟩
      · by_cases hc2 : sub_choice = "2"
        · subst hc2
          cases inp with
          | none => simp [sell_btc, h0, hc1] at h
          | some a =>
            by_cases h1 : a ≤ 0
            · simp [sell_btc, h0, hc1, h1] at h
            · cases price with
              | none => simp [sell_btc, h0, hc1, h1] at h
              | some p =>
                by_cases h3 : p = 0
                · simp [sell_btc, h0, hc1, h1, h3] at h
                · by_cases h4 : a / p > s.btc_balance
                  · simp [sell_btc, h0, hc1, h1, h3, h4] at h
                  · rw [sell_btc_amount_success_eq s a p h0 h1 h3 h4]
                    exact ⟨⟨.sell, a, a / p, p⟩, rfl, div_mul_cancel₀ a h3⟩
        · simp [sell_btc, h0, hc1, hc2] at h

/-- C10 witness: the theorem applied to the successful $10000 buy at
price $50000 from the fresh state. -/
theorem trade_notional_conservation_witness :
    ∃ t : Transaction,
      (buy_btc s0 (some 10000) (some 50000)).1.transaction_history =
        s0.transaction_history ++ [t] ∧
      t.btc * t.price_per_btc = t.amount_usd :=
  (trade_notional_conservation s0 (some 10000) (some 50000) "1").1 (by decide)

/-- C7 (amended): an inbound message that parses as a JSON list of length
at least 2 whose second element is an object carrying a field `'c'` whose
first entry is a numeric string replaces the latest price (under the
price lock) by that number; every message that does not update the price
leaves it unchanged, and the handler catches `KeyError`, `ValueError`
(including JSON decode errors) and `IndexError` — but a payload whose
second element is not subscriptable by `'c'` (for example `[1, 2]`)
raises a `TypeError` that escapes the handler uncaught, the price still
unchanged. -/
theorem on_message_updates_price (price : Option ℚ) (x info : Json)
    (rest tail : List Json) (fields : List (String × Json))
    (numstr : String) (q : ℚ)
    (hinfo : info = Json.obj fields)
    (hc : fields.lookup "c" = some (Json.arr (Json.str numstr :: tail)))
    (hq : parseDecimal (pyStrip numstr) = some q) :
    on_message price (some (Json.arr (x :: info :: rest))) =
      (some q, .updated) ∧
    (∀ (pr : Option ℚ) (m : Option Json),
      (on_message pr m).2 ≠ .updated → (on_message pr m).1 = pr) ∧
    (∀ (pr : Option ℚ) (m : Option Json) (e : PyError),
      (on_message pr m).2 = .uncaught e → e = .typeError) := by
  refine ⟨?_, ?_, ?_⟩
  · subst hinfo
    simp [on_message, getItemStr, hc, getItemZero, pyFloat, hq, bind, Except.bind]
  · intro pr m hm
    cases m with
    | none => rfl
    | some d =>
      cases d with
      | arr elems =>
        cases elems with
        | nil => rfl
        | cons a tl =>
          cases tl with
          | nil => rfl
          | cons b tl2 =>
            cases hres : (do
                let c ← getItemStr b "c"
                let c0 ← getItemZero c
                pyFloat c0 : Except PyError ℚ) with
            | ok v => simp [on_message, hres] at hm
            | error e => cases e <;> simp [on_message, hres]
      | null => rfl
      | bool b => rfl
      | num n => rfl
      | str t => rfl
      | obj fs => rfl
  · intro pr m e hm
    cases m with
    | none => simp [on_message] at hm
    | some d =>
      cases d with
      | arr elems =>
        cases elems with
        | nil => simp [on_message] at hm
        | cons a tl =>
          cases tl with
          | nil => simp [on_message] at hm
          | cons b tl2 =>
            cases hres : (do
                let c ← getItemStr b "c"
                let c0 ← getItemZero c
                pyFloat c0 : Except PyError ℚ) with
            | ok v => simp [on_message, hres] at hm
            | error e2 =>
              cases e2 with
              | keyError => simp [on_message, hres] at hm
              | valueError => simp [on_message, hres] at hm
              | indexError => simp [on_message, hres] at hm
              | typeError =>
                simp [on_message, hres] at hm
                simp [hm]
      | null => simp [on_message] at hm
      | bool b => simp [on_message] at hm
      | num n => simp [on_message] at hm
      | str t => simp [on_message] at hm
      | obj fs => simp [on_message] at hm

/-- C7 counterexample: the message `[1, 2]` parses as a JSON list of
length 2, but its second element is the number `2`, so `2['c']` raises a
`TypeError` — which is not among the caught exception classes and escapes
the message handler — refuting "no exception escapes the message handler
(never fatal)".  The price cell itself is left unchanged. -/
theorem on_message_updates_price_cex :
    on_message (some 5) (some (Json.arr [Json.num 1, Json.num 2])) =
      (some 5, .uncaught .typeError) := by
  decide

/-- C7 witness: the spec's scenario tick `[340, {"c": ["65000.1", "0.5"]}]`
makes the latest price `65000.1`. -/
theorem on_message_updates_price_witness :
    on_message none
      (some (Json.arr [Json.num 340,
        Json.obj [("c", Json.arr [Json.str "65000.1", Json.str "0.5"])]])) =
      (some (650001 / 10 : ℚ), .updated) :=
  (on_message_updates_price none (Json.num 340)
    (Json.obj [("c", Json.arr [Json.str "65000.1", Json.str "0.5"])])
    [] [Json.str "0.5"] [("c", Json.arr [Json.str "65000.1", Json.str "0.5"])]
    "65000.1" (650001 / 10) rfl rfl
    (by
      have h1 : pyStrip "65000.1" = "65000.1" := by decide
      have h2 : parseDecimal "65000.1" =
          some ((↑(65000 : ℕ) : ℚ) + (↑(1 : ℕ) : ℚ) / 10 ^ 1) := rfl
      rw [h1, h2]
      norm_num)).1
